import Mathlib

/-!
Shallow embedding of the gellyscape PDF content-stream interpreter
(pdf-content-parser.js) and the SVG path converter (svg-path-converter.js),
with proofs about the properties claimed in the specification.

JS numbers are modelled as rationals: every arithmetic operation the
embedded code performs (parsing decimal literals, +, -, *, /, rounding)
is exact on the values the settled claims exercise.
-/

namespace Gelly

/-- A 2D point, as stored by the parser in startPoint / segment records. -/
structure Point where
  x : ℚ
  y : ℚ
deriving DecidableEq, Repr

/-- A path segment: the parser emits only line and cubic segments
(opLineTo / opCurveTo / opCurveToV / opCurveToY). -/
inductive Segment where
  | line (point : Point)
  | cubic (cp1 cp2 point : Point)
deriving DecidableEq, Repr

/-- A subpath: segments, closed flag, start point (opMoveTo / opRectangle). -/
structure Subpath where
  segments : List Segment
  closed : Bool
  startPoint : Point
deriving DecidableEq, Repr

/-- A 2x3 affine matrix literal `{a, b, c, d, e, f}` as used for the CTM. -/
structure PdfMatrix where
  a : ℚ
  b : ℚ
  c : ℚ
  d : ℚ
  e : ℚ
  f : ℚ
deriving DecidableEq, Repr

/-- The identity CTM `{a: 1, b: 0, c: 0, d: 1, e: 0, f: 0}`. -/
def idMatrix : PdfMatrix := { a := 1, b := 0, c := 0, d := 1, e := 0, f := 0 }

/-- `multiplyMatrices(m1, m2)` from pdf-content-parser.js. -/
def multiplyMatrices (m1 m2 : PdfMatrix) : PdfMatrix :=
  { a := m1.a * m2.a + m1.b * m2.c
    b := m1.a * m2.b + m1.b * m2.d
    c := m1.c * m2.a + m1.d * m2.c
    d := m1.c * m2.b + m1.d * m2.d
    e := m1.e * m2.a + m1.f * m2.c + m2.e
    f := m1.e * m2.b + m1.f * m2.d + m2.f }

/-- The `style` object of a Path: starts out as `{}` (all fields absent);
painting operators assign some of the fields. -/
structure Style where
  fill : Option String := none
  fillRule : Option String := none
  fillOpacity : Option ℚ := none
  stroke : Option String := none
  strokeWidth : Option ℚ := none
  strokeLinecap : Option String := none
  strokeLinejoin : Option String := none
  strokeDasharray : Option String := none
deriving DecidableEq, Repr

/-- A Path under construction / completed (createPath in the source). -/
structure Path where
  subpaths : List Subpath
  currentPoint : Option Point
  operation : Option String
  style : Style
  transform : PdfMatrix
deriving DecidableEq, Repr

/-- GraphicsState from pdf-content-parser.js (constructor defaults). -/
structure GraphicsState where
  fillColor : String := "#000000"
  strokeColor : String := "#000000"
  lineWidth : ℚ := 1
  lineCap : String := "butt"
  lineJoin : String := "miter"
  dashArray : String := ""
  ctm : PdfMatrix := idMatrix
deriving DecidableEq, Repr

/-- `GraphicsState.clone()`: a field-by-field deep copy (the ctm object is
spread into a fresh object; in this value-level model that is a plain copy). -/
def GraphicsState.clone (g : GraphicsState) : GraphicsState :=
  { fillColor := g.fillColor
    strokeColor := g.strokeColor
    lineWidth := g.lineWidth
    lineCap := g.lineCap
    lineJoin := g.lineJoin
    dashArray := g.dashArray
    ctm := g.ctm }

/-- A text run pushed onto `this.textObjects` by the text-showing operators. -/
structure TextRun where
  text : String
  x : ℚ
  y : ℚ
  font : Option String
  fontSize : ℚ
  fillColor : String
  ctm : PdfMatrix
deriving DecidableEq, Repr

/-- The mutable state of a PDFContentParser instance, as set up by its
constructor.  The parser in the extraction pipeline is constructed without
options, so no pdfContext/fontDict is present (the ToUnicode CMap decoder
is modelled separately, see decodeWithCMapScalars below). -/
structure ParserState where
  paths : List Path := []
  currentPath : Option Path := none
  textObjects : List TextRun := []
  graphicsState : GraphicsState := {}
  stateStack : List GraphicsState := []
  inTextObject : Bool := false
  currentFont : Option String := none
  currentFontSize : ℚ := 0
  textMatrix : List ℚ := [1, 0, 0, 1, 0, 0]
  textLineMatrix : List ℚ := [1, 0, 0, 1, 0, 0]
deriving DecidableEq, Repr

/-- The state of a freshly constructed PDFContentParser. -/
def initState : ParserState := {}

/- ### Numeric helpers (JS builtins used by the source) -/

/-- Digits of a decimal literal folded to a natural number. -/
def digitsToNat (ds : List Char) : Nat :=
  ds.foldl (fun n c => n * 10 + (c.toNat - 48)) 0

/-- Parse `[+-]? digits+ (. digits*)?` as an exact rational; `none` when the
text does not start with a number (JS NaN). -/
def parseFloatAux (cs : List Char) : Option ℚ :=
  let (neg, cs1) :=
    match cs with
    | c :: rest =>
      if c = Char.ofNat 45 then (true, rest)
      else if c = Char.ofNat 43 then (false, rest)
      else (false, cs)
    | [] => (false, ([] : List Char))
  let intDigits := cs1.takeWhile Char.isDigit
  if intDigits = [] then none
  else
    let cs2 := cs1.drop intDigits.length
    let fracDigits :=
      match cs2 with
      | c :: rest => if c = Char.ofNat 46 then rest.takeWhile Char.isDigit else []
      | [] => []
    let mag : ℚ :=
      (digitsToNat intDigits : ℚ) +
        (digitsToNat fracDigits : ℚ) / ((10 : ℚ) ^ fracDigits.length)
    some (if neg then -mag else mag)

/-- JS `parseFloat` on the token strings the tokenizer produces (which never
carry exponents).  A non-numeric token yields NaN in JS; that is modelled as
0 here — no settled claim feeds a non-numeric operand to a numeric handler. -/
def parseFloat (s : String) : ℚ :=
  match parseFloatAux s.data with
  | some q => q
  | none => 0

/-- JS `parseInt` (radix 10) on token strings: sign and decimal-digit prefix.
NaN is modelled as 0, which the two call sites (line cap / line join lookup)
map to the same default as NaN does in the source. -/
def parseIntJS (s : String) : Int :=
  let (neg, cs1) :=
    match s.data with
    | c :: rest =>
      if c = Char.ofNat 45 then (true, rest)
      else if c = Char.ofNat 43 then (false, rest)
      else (false, s.data)
    | [] => (false, ([] : List Char))
  let ds := cs1.takeWhile Char.isDigit
  let n : Int := (digitsToNat ds : Int)
  if neg then -n else n

/-- JS `Math.round`: round half towards positive infinity. -/
def jsRound (q : ℚ) : Int := Rat.floor (q + 1 / 2)

/-- JS `Number.prototype.toString(16)` for integral values (lowercase hex). -/
def toHexJS (n : Int) : String :=
  if n < 0 then "-" ++ String.mk (Nat.toDigits 16 n.natAbs)
  else String.mk (Nat.toDigits 16 n.toNat)

/-- JS `String.prototype.padStart(n, pad)`. -/
def padStart (n : Nat) (pad : Char) (s : String) : String :=
  if n ≤ s.length then s
  else String.mk (List.replicate (n - s.length) pad) ++ s

/-- `grayToHex` from pdf-content-parser.js. -/
def grayToHex (gray : ℚ) : String :=
  let hex := padStart 2 (Char.ofNat 48) (toHexJS (jsRound (gray * 255)))
  "#" ++ hex ++ hex ++ hex

/-- `rgbToHex` from pdf-content-parser.js. -/
def rgbToHex (r g b : ℚ) : String :=
  let rHex := padStart 2 (Char.ofNat 48) (toHexJS (jsRound (r * 255)))
  let gHex := padStart 2 (Char.ofNat 48) (toHexJS (jsRound (g * 255)))
  let bHex := padStart 2 (Char.ofNat 48) (toHexJS (jsRound (b * 255)))
  "#" ++ rHex ++ gHex ++ bHex

/-- `cmykToHex` from pdf-content-parser.js. -/
def cmykToHex (c m y k : ℚ) : String :=
  rgbToHex ((1 - c) * (1 - k)) ((1 - m) * (1 - k)) ((1 - y) * (1 - k))

/- ### Tokenizer

`tokenize` runs the regular expression
`(<[0-9A-Fa-f\s]*>)|([+-]?\d+\.?\d*)|(\[|\])|(\((?:[^()\\]|\\.)*\))|\/([^\s\[\]()<>\/{}%]+)|([a-zA-Z'"][a-zA-Z0-9'"]*)|\s+`
globally over the stream text and pushes every nonempty trimmed match.
The alternatives have pairwise disjoint leading characters, so the regex
engine's left-to-right scan (advancing one character where nothing matches)
is reproduced by the character-level scanner below. -/

/-- The single-quote character (code 39). -/
def squote : Char := Char.ofNat 39

/-- The double-quote character. -/
def dquote : Char := Char.ofNat 34

/-- JS `\s` restricted to the ASCII whitespace the streams contain. -/
def isJsSpace (c : Char) : Bool :=
  c = Char.ofNat 32 || c = Char.ofNat 9 || c = Char.ofNat 10 ||
  c = Char.ofNat 13 || c = Char.ofNat 11 || c = Char.ofNat 12

/-- `[0-9A-Fa-f]`. -/
def isHexDigitJS (c : Char) : Bool :=
  c.isDigit || (Char.ofNat 65 ≤ c && c ≤ Char.ofNat 70) ||
    (Char.ofNat 97 ≤ c && c ≤ Char.ofNat 102)

/-- First character of an operator token: `[a-zA-Z'"]`. -/
def isOpStart (c : Char) : Bool := c.isAlpha || c = squote || c = dquote

/-- Later characters of an operator token: `[a-zA-Z0-9'"]`. -/
def isOpTail (c : Char) : Bool :=
  c.isAlpha || c.isDigit || c = squote || c = dquote

/-- Characters allowed inside a name token:
`[^\s\[\]()<>\/{}%]`. -/
def isNameChar (c : Char) : Bool :=
  !(isJsSpace c || c = Char.ofNat 91 || c = Char.ofNat 93 ||
    c = Char.ofNat 40 || c = Char.ofNat 41 || c = Char.ofNat 60 ||
    c = Char.ofNat 62 || c = Char.ofNat 47 || c = Char.ofNat 123 ||
    c = Char.ofNat 125 || c = Char.ofNat 37)

/-- Match alternative 1, a hex string `<[0-9A-Fa-f\s]*>`; `cs` is the
input after the opening `<`. -/
def matchHex (cs : List Char) : Option (String × List Char) :=
  let mid := cs.takeWhile (fun c => isHexDigitJS c || isJsSpace c)
  match cs.drop mid.length with
  | c :: rest =>
    if c = Char.ofNat 62 then
      some (String.mk (Char.ofNat 60 :: mid ++ [Char.ofNat 62]), rest)
    else none
  | [] => none

/-- Match alternative 2, a number `[+-]?\d+\.?\d*`, at the head of the
input. -/
def matchNumber (cs : List Char) : Option (String × List Char) :=
  let (sign, cs1) :=
    match cs with
    | c :: rest =>
      if c = Char.ofNat 43 || c = Char.ofNat 45 then ([c], rest)
      else (([] : List Char), cs)
    | [] => (([] : List Char), ([] : List Char))
  let digs := cs1.takeWhile Char.isDigit
  if digs = [] then none
  else
    let cs2 := cs1.drop digs.length
    match cs2 with
    | c :: rest2 =>
      if c = Char.ofNat 46 then
        let frac := rest2.takeWhile Char.isDigit
        some (String.mk (sign ++ digs ++ c :: frac), rest2.drop frac.length)
      else some (String.mk (sign ++ digs), cs2)
    | [] => some (String.mk (sign ++ digs), [])

/-- Match alternative 4, a literal string `\((?:[^()\\]|\\.)*\)`; the
input after the opening parenthesis is scanned for the closing one, with
`\\.` pairs skipped and unescaped parentheses refused. -/
def matchLiteralAux : Nat → List Char → Option (List Char × List Char)
  | 0, _ => none
  | _ + 1, [] => none
  | fuel + 1, c :: rest =>
    if c = Char.ofNat 41 then some ([], rest)
    else if c = Char.ofNat 40 then none
    else if c = Char.ofNat 92 then
      match rest with
      | [] => none
      | d :: rest2 =>
        match matchLiteralAux fuel rest2 with
        | some (content, r) => some (c :: d :: content, r)
        | none => none
    else
      match matchLiteralAux fuel rest with
      | some (content, r) => some (c :: content, r)
      | none => none

/-- Match a name token `\/[^\s\[\]()<>\/{}%]+` (the head is `/`). -/
def matchName (cs : List Char) : Option (String × List Char) :=
  let body := cs.takeWhile isNameChar
  if body = [] then none
  else some (String.mk (Char.ofNat 47 :: body), cs.drop body.length)

/-- The character-level scan implementing `tokenize`'s regex loop.  Each
step consumes at least one character, so the initial length is enough
fuel. -/
def tokenizeAux : Nat → List Char → List String
  | 0, _ => []
  | _ + 1, [] => []
  | fuel + 1, c :: cs =>
    if c = Char.ofNat 60 then
      match matchHex cs with
      | some (tok, rest) => tok :: tokenizeAux fuel rest
      | none => tokenizeAux fuel cs
    else if c.isDigit || c = Char.ofNat 43 || c = Char.ofNat 45 then
      match matchNumber (c :: cs) with
      | some (tok, rest) => tok :: tokenizeAux fuel rest
      | none => tokenizeAux fuel cs
    else if c = Char.ofNat 91 || c = Char.ofNat 93 then
      String.mk [c] :: tokenizeAux fuel cs
    else if c = Char.ofNat 40 then
      match matchLiteralAux (cs.length + 1) cs with
      | some (content, rest) =>
        String.mk (Char.ofNat 40 :: content ++ [Char.ofNat 41]) ::
          tokenizeAux fuel rest
      | none => tokenizeAux fuel cs
    else if c = Char.ofNat 47 then
      match matchName cs with
      | some (tok, rest) => tok :: tokenizeAux fuel rest
      | none => tokenizeAux fuel cs
    else if isOpStart c then
      let tail := cs.takeWhile isOpTail
      String.mk (c :: tail) :: tokenizeAux fuel (cs.drop tail.length)
    else
      -- whitespace matches `\s+` but trims to the empty token and is
      -- dropped; any other character matches nothing and is skipped
      tokenizeAux fuel cs

/-- `tokenize` from pdf-content-parser.js. -/
def tokenize (content : String) : List String :=
  tokenizeAux content.length content.data

/- ### Path construction and painting operators -/

/-- `createPath()`: note that `transform` is the graphics state's CTM at
the moment the path object is created. -/
def createPath (st : ParserState) : Path :=
  { subpaths := []
    currentPoint := none
    operation := none
    style := {}
    transform := st.graphicsState.ctm }

/-- `getCurrentSubpath()` + `segments.push(seg)`: append a segment to the
last subpath of the path, when one exists. -/
def pushSegment (seg : Segment) (p : Path) : Path :=
  match p.subpaths.getLast? with
  | none => p
  | some sp =>
    { p with
        subpaths := p.subpaths.dropLast ++
          [{ sp with segments := sp.segments ++ [seg] }] }

/-- `opMoveTo`. -/
def opMoveTo (operands : List String) (st : ParserState) : ParserState :=
  if operands.length < 2 then st
  else
    let x := parseFloat (operands.getD 0 "")
    let y := parseFloat (operands.getD 1 "")
    let path := match st.currentPath with
      | none => createPath st
      | some p => p
    let path :=
      { path with
          subpaths := path.subpaths ++
            [{ segments := [], closed := false, startPoint := ⟨x, y⟩ }]
          currentPoint := some ⟨x, y⟩ }
    { st with currentPath := some path }

/-- `opLineTo`. -/
def opLineTo (operands : List String) (st : ParserState) : ParserState :=
  if operands.length < 2 || st.currentPath = none then st
  else
    let x := parseFloat (operands.getD 0 "")
    let y := parseFloat (operands.getD 1 "")
    match st.currentPath with
    | none => st
    | some p =>
      let p := pushSegment (.line ⟨x, y⟩) p
      { st with currentPath := some { p with currentPoint := some ⟨x, y⟩ } }

/-- `opCurveTo`. -/
def opCurveTo (operands : List String) (st : ParserState) : ParserState :=
  if operands.length < 6 || st.currentPath = none then st
  else
    let x1 := parseFloat (operands.getD 0 "")
    let y1 := parseFloat (operands.getD 1 "")
    let x2 := parseFloat (operands.getD 2 "")
    let y2 := parseFloat (operands.getD 3 "")
    let x3 := parseFloat (operands.getD 4 "")
    let y3 := parseFloat (operands.getD 5 "")
    match st.currentPath with
    | none => st
    | some p =>
      let p := pushSegment (.cubic ⟨x1, y1⟩ ⟨x2, y2⟩ ⟨x3, y3⟩) p
      { st with currentPath := some { p with currentPoint := some ⟨x3, y3⟩ } }

/-- `opCurveToV`: the current point doubles as the first control point.
A path always has a current point once it exists (set by `m` / `re`), so
the default never fires. -/
def opCurveToV (operands : List String) (st : ParserState) : ParserState :=
  if operands.length < 4 || st.currentPath = none then st
  else
    let x2 := parseFloat (operands.getD 0 "")
    let y2 := parseFloat (operands.getD 1 "")
    let x3 := parseFloat (operands.getD 2 "")
    let y3 := parseFloat (operands.getD 3 "")
    match st.currentPath with
    | none => st
    | some p =>
      let cp := p.currentPoint.getD ⟨0, 0⟩
      let p := pushSegment (.cubic ⟨cp.x, cp.y⟩ ⟨x2, y2⟩ ⟨x3, y3⟩) p
      { st with currentPath := some { p with currentPoint := some ⟨x3, y3⟩ } }

/-- `opCurveToY`: the endpoint doubles as the second control point. -/
def opCurveToY (operands : List String) (st : ParserState) : ParserState :=
  if operands.length < 4 || st.currentPath = none then st
  else
    let x1 := parseFloat (operands.getD 0 "")
    let y1 := parseFloat (operands.getD 1 "")
    let x3 := parseFloat (operands.getD 2 "")
    let y3 := parseFloat (operands.getD 3 "")
    match st.currentPath with
    | none => st
    | some p =>
      let p := pushSegment (.cubic ⟨x1, y1⟩ ⟨x3, y3⟩ ⟨x3, y3⟩) p
      { st with currentPath := some { p with currentPoint := some ⟨x3, y3⟩ } }

/-- `opClosePath`: mark the last subpath closed. -/
def opClosePath (st : ParserState) : ParserState :=
  match st.currentPath with
  | none => st
  | some p =>
    match p.subpaths.getLast? with
    | none => st
    | some sp =>
      { st with
          currentPath := some
            { p with subpaths := p.subpaths.dropLast ++ [{ sp with closed := true }] } }

/-- `opRectangle`. -/
def opRectangle (operands : List String) (st : ParserState) : ParserState :=
  if operands.length < 4 then st
  else
    let x := parseFloat (operands.getD 0 "")
    let y := parseFloat (operands.getD 1 "")
    let width := parseFloat (operands.getD 2 "")
    let height := parseFloat (operands.getD 3 "")
    let path := match st.currentPath with
      | none => createPath st
      | some p => p
    let path :=
      { path with
          subpaths := path.subpaths ++
            [{ segments :=
                 [.line ⟨x + width, y⟩, .line ⟨x + width, y + height⟩,
                  .line ⟨x, y + height⟩]
               closed := true
               startPoint := ⟨x, y⟩ }]
          currentPoint := some ⟨x, y⟩ }
    { st with currentPath := some path }

/-- `finishPath()`: append the completed path and clear the reference. -/
def finishPath (st : ParserState) : ParserState :=
  match st.currentPath with
  | none => st
  | some p => { st with paths := st.paths ++ [p], currentPath := none }

/-- `opStroke`: record stroke styling from the live graphics state, set
the operation, and finish the path. -/
def opStroke (st : ParserState) : ParserState :=
  match st.currentPath with
  | none => st
  | some p =>
    finishPath
      { st with
          currentPath := some
            { p with
                operation := some "stroke"
                style :=
                  { p.style with
                      stroke := some st.graphicsState.strokeColor
                      strokeWidth := some st.graphicsState.lineWidth
                      strokeLinecap := some st.graphicsState.lineCap
                      strokeLinejoin := some st.graphicsState.lineJoin
                      strokeDasharray := some st.graphicsState.dashArray } } }

/-- `opFill`. -/
def opFill (fillRule : String) (st : ParserState) : ParserState :=
  match st.currentPath with
  | none => st
  | some p =>
    finishPath
      { st with
          currentPath := some
            { p with
                operation := some "fill"
                style :=
                  { p.style with
                      fill := some st.graphicsState.fillColor
                      fillRule := some fillRule } } }

/-- `opFillAndStroke`. -/
def opFillAndStroke (fillRule : String) (st : ParserState) : ParserState :=
  match st.currentPath with
  | none => st
  | some p =>
    finishPath
      { st with
          currentPath := some
            { p with
                operation := some "fill-stroke"
                style :=
                  { p.style with
                      fill := some st.graphicsState.fillColor
                      fillRule := some fillRule
                      stroke := some st.graphicsState.strokeColor
                      strokeWidth := some st.graphicsState.lineWidth
                      strokeLinecap := some st.graphicsState.lineCap
                      strokeLinejoin := some st.graphicsState.lineJoin } } }

/-- `opEndPath`: discard the current path. -/
def opEndPath (st : ParserState) : ParserState :=
  { st with currentPath := none }

/- ### Graphics state operators -/

/-- `opSetLineWidth`. -/
def opSetLineWidth (operands : List String) (st : ParserState) : ParserState :=
  if operands.length < 1 then st
  else
    { st with graphicsState :=
        { st.graphicsState with lineWidth := parseFloat (operands.getD 0 "") } }

/-- `['butt', 'round', 'square'][cap] || 'butt'`. -/
def jsLineCapName (cap : Int) : String :=
  if cap = 0 then "butt" else if cap = 1 then "round"
  else if cap = 2 then "square" else "butt"

/-- `opSetLineCap`. -/
def opSetLineCap (operands : List String) (st : ParserState) : ParserState :=
  if operands.length < 1 then st
  else
    { st with graphicsState :=
        { st.graphicsState with
            lineCap := jsLineCapName (parseIntJS (operands.getD 0 "")) } }

/-- `['miter', 'round', 'bevel'][join] || 'miter'`. -/
def jsLineJoinName (join : Int) : String :=
  if join = 0 then "miter" else if join = 1 then "round"
  else if join = 2 then "bevel" else "miter"

/-- `opSetLineJoin`. -/
def opSetLineJoin (operands : List String) (st : ParserState) : ParserState :=
  if operands.length < 1 then st
  else
    { st with graphicsState :=
        { st.graphicsState with
            lineJoin := jsLineJoinName (parseIntJS (operands.getD 0 "")) } }

/-- `opSetDash`: `this.graphicsState.dashArray = operands.join(' ')` —
there is no operand-count check; the assignment always happens. -/
def opSetDash (operands : List String) (st : ParserState) : ParserState :=
  { st with graphicsState :=
      { st.graphicsState with dashArray := String.intercalate " " operands } }

/-- `opSaveState`: push a deep copy of the graphics state (JS pushes to
the end of the array; the stack is stored most-recent-first here). -/
def opSaveState (st : ParserState) : ParserState :=
  { st with stateStack := st.graphicsState.clone :: st.stateStack }

/-- `opRestoreState`: pop when the stack is nonempty, otherwise do
nothing. -/
def opRestoreState (st : ParserState) : ParserState :=
  match st.stateStack with
  | [] => st
  | s :: rest => { st with graphicsState := s, stateStack := rest }

/-- `opConcatMatrix`. -/
def opConcatMatrix (operands : List String) (st : ParserState) : ParserState :=
  if operands.length < 6 then st
  else
    let matrix : PdfMatrix :=
      { a := parseFloat (operands.getD 0 "")
        b := parseFloat (operands.getD 1 "")
        c := parseFloat (operands.getD 2 "")
        d := parseFloat (operands.getD 3 "")
        e := parseFloat (operands.getD 4 "")
        f := parseFloat (operands.getD 5 "") }
    { st with graphicsState :=
        { st.graphicsState with
            ctm := multiplyMatrices st.graphicsState.ctm matrix } }

/- ### Color operators -/

/-- `opSetGray`. -/
def opSetGray (operands : List String) (target : String) (st : ParserState) :
    ParserState :=
  if operands.length < 1 then st
  else
    let color := grayToHex (parseFloat (operands.getD 0 ""))
    if target = "fill" then
      { st with graphicsState := { st.graphicsState with fillColor := color } }
    else
      { st with graphicsState := { st.graphicsState with strokeColor := color } }

/-- `opSetRGB`. -/
def opSetRGB (operands : List String) (target : String) (st : ParserState) :
    ParserState :=
  if operands.length < 3 then st
  else
    let color := rgbToHex (parseFloat (operands.getD 0 ""))
      (parseFloat (operands.getD 1 "")) (parseFloat (operands.getD 2 ""))
    if target = "fill" then
      { st with graphicsState := { st.graphicsState with fillColor := color } }
    else
      { st with graphicsState := { st.graphicsState with strokeColor := color } }

/-- `opSetCMYK`. -/
def opSetCMYK (operands : List String) (target : String) (st : ParserState) :
    ParserState :=
  if operands.length < 4 then st
  else
    let color := cmykToHex (parseFloat (operands.getD 0 ""))
      (parseFloat (operands.getD 1 "")) (parseFloat (operands.getD 2 ""))
      (parseFloat (operands.getD 3 ""))
    if target = "fill" then
      { st with graphicsState := { st.graphicsState with fillColor := color } }
    else
      { st with graphicsState := { st.graphicsState with strokeColor := color } }

/- ### Text string decoding

The pipeline (extractContentPaths in pdf-processor.js) constructs the
parser without options, so `this.fontDict`/`this.pdfContext` are absent
and the ToUnicode branch of decodeTextString can never fire there; the
CMap decoder itself is modelled separately below for the CMap claims. -/

/-- Value of one hex digit. -/
def hexDigitVal (c : Char) : Nat :=
  if c.isDigit then c.toNat - 48
  else if Char.ofNat 65 ≤ c && c ≤ Char.ofNat 70 then c.toNat - 55
  else if Char.ofNat 97 ≤ c && c ≤ Char.ofNat 102 then c.toNat - 87
  else 0

/-- `parseInt(hexPair, 16)` fed to `String.fromCharCode`: the hex-digit
prefix of the pair (NaN, for a pair with no leading hex digit, becomes
character code 0 under ToUint16). -/
def hexPairCode (c1 : Char) (c2 : Option Char) : Nat :=
  if isHexDigitJS c1 then
    match c2 with
    | some c => if isHexDigitJS c then hexDigitVal c1 * 16 + hexDigitVal c else hexDigitVal c1
    | none => hexDigitVal c1
  else 0

/-- The hex-pair loop of decodeTextString: `substr(i, 2)` pairs, last pair
possibly a single digit. -/
def hexPairsToChars : List Char → List Char
  | [] => []
  | [c] => [Char.ofNat (hexPairCode c none)]
  | c1 :: c2 :: rest => Char.ofNat (hexPairCode c1 (some c2)) :: hexPairsToChars rest

/-- `slice(1, -1)`: drop the delimiter characters. -/
def innerOf (s : String) : String :=
  String.mk (s.data.drop 1).dropLast

/-- The escape-sequence replacement chain of decodeTextString, applied in
source order. -/
def unescapeLiteral (s : String) : String :=
  ((((((((s.replace "\\n" "\n").replace "\\r" "\r").replace "\\t" "\t").replace
    "\\b" "\x08").replace "\\f" "\x0c").replace "\\(" "(").replace
    "\\)" ")").replace "\\\\" "\\")

/-- `decodeTextString` as it behaves in the pipeline (no font dictionary,
hence no CMap lookup). -/
def decodeTextString (pdfString : String) : String :=
  if pdfString.startsWith "<" && pdfString.endsWith ">" then
    String.mk (hexPairsToChars ((innerOf pdfString).data.filter (fun c => !isJsSpace c)))
  else if pdfString.startsWith "(" && pdfString.endsWith ")" then
    unescapeLiteral (innerOf pdfString)
  else pdfString

/- ### Text operators -/

/-- `opBeginText`. -/
def opBeginText (st : ParserState) : ParserState :=
  { st with
      inTextObject := true
      textMatrix := [1, 0, 0, 1, 0, 0]
      textLineMatrix := [1, 0, 0, 1, 0, 0] }

/-- `opEndText`. -/
def opEndText (st : ParserState) : ParserState :=
  { st with inTextObject := false }

/-- `opSetFont`. -/
def opSetFont (operands : List String) (st : ParserState) : ParserState :=
  if operands.length ≥ 2 then
    { st with
        currentFont := some (operands.getD 0 "")
        currentFontSize := parseFloat (operands.getD 1 "") }
  else st

/-- `opSetTextMatrix`. -/
def opSetTextMatrix (operands : List String) (st : ParserState) : ParserState :=
  if operands.length ≥ 6 then
    let tm := operands.map parseFloat
    { st with textMatrix := tm, textLineMatrix := tm }
  else st

/-- `opMoveText`: translate only the translation components of the text
line matrix, then copy it into the text matrix. -/
def opMoveText (operands : List String) (st : ParserState) : ParserState :=
  if operands.length ≥ 2 then
    let tx := parseFloat (operands.getD 0 "")
    let ty := parseFloat (operands.getD 1 "")
    let tlm := st.textLineMatrix
    let tlm := tlm.set 4 (tlm.getD 4 0 + tx)
    let tlm := tlm.set 5 (tlm.getD 5 0 + ty)
    { st with textLineMatrix := tlm, textMatrix := tlm }
  else st

/-- `opMoveTextSetLeading` delegates to `opMoveText`. -/
def opMoveTextSetLeading (operands : List String) (st : ParserState) : ParserState :=
  opMoveText operands st

/-- `opNextLine`: fixed `fontSize * 1.2` advance. -/
def opNextLine (st : ParserState) : ParserState :=
  let tlm := st.textLineMatrix
  let tlm := tlm.set 5 (tlm.getD 5 0 - st.currentFontSize * (6 / 5))
  { st with textLineMatrix := tlm, textMatrix := tlm }

/-- `opShowText`. -/
def opShowText (operands : List String) (st : ParserState) : ParserState :=
  if operands.length ≥ 1 && st.inTextObject then
    let rawText := operands.getD 0 ""
    let textString := decodeTextString rawText
    let x := st.textMatrix.getD 4 0
    let y := st.textMatrix.getD 5 0
    { st with
        textObjects := st.textObjects ++
          [{ text := textString, x := x, y := y, font := st.currentFont,
             fontSize := st.currentFontSize,
             fillColor := st.graphicsState.fillColor,
             ctm := st.graphicsState.ctm }] }
  else st

/-- `matchAll(/\(([^)]*)\)/g)`: the parenthesized groups of a string, in
order.  Each step consumes at least one character. -/
def extractParenGroupsAux : Nat → List Char → List String
  | 0, _ => []
  | _ + 1, [] => []
  | fuel + 1, c :: cs =>
    if c = Char.ofNat 40 then
      let inner := cs.takeWhile (fun d => !(d = Char.ofNat 41))
      match cs.drop inner.length with
      | d :: rest =>
        if d = Char.ofNat 41 then String.mk inner :: extractParenGroupsAux fuel rest
        else extractParenGroupsAux fuel cs
      | [] => []
    else extractParenGroupsAux fuel cs

/-- The literal strings matched inside a (single) token by
`opShowTextPositioned`. -/
def extractParenGroups (s : String) : List String :=
  extractParenGroupsAux s.length s.data

/-- `opShowTextPositioned` (the TJ handler): it looks only at
`operands[0]` and extracts `(...)` groups from that one string. -/
def opShowTextPositioned (operands : List String) (st : ParserState) : ParserState :=
  if operands.length ≥ 1 && st.inTextObject then
    let array := operands.getD 0 ""
    (extractParenGroups array).foldl
      (fun st g =>
        let textString := decodeTextString ("(" ++ g ++ ")")
        let x := st.textMatrix.getD 4 0
        let y := st.textMatrix.getD 5 0
        { st with
            textObjects := st.textObjects ++
              [{ text := textString, x := x, y := y, font := st.currentFont,
                 fontSize := st.currentFontSize,
                 fillColor := st.graphicsState.fillColor,
                 ctm := st.graphicsState.ctm }] })
      st
  else st

/- ### Operator dispatch -/

/-- The one-character string holding a single quote. -/
def squoteStr : String := String.mk [squote]

/-- The one-character string holding a double quote. -/
def dquoteStr : String := String.mk [dquote]

/-- `executeOperator`: the switch over operator names.  Unknown operators
fall through to the identity. -/
def executeOperator (operator : String) (operands : List String)
    (st : ParserState) : ParserState :=
  if operator = "m" then opMoveTo operands st
  else if operator = "l" then opLineTo operands st
  else if operator = "c" then opCurveTo operands st
  else if operator = "v" then opCurveToV operands st
  else if operator = "y" then opCurveToY operands st
  else if operator = "h" then opClosePath st
  else if operator = "re" then opRectangle operands st
  else if operator = "S" then opStroke st
  else if operator = "s" then opStroke (opClosePath st)
  else if operator = "f" || operator = "F" then opFill "nonzero" st
  else if operator = "f*" then opFill "evenodd" st
  else if operator = "B" then opFillAndStroke "nonzero" st
  else if operator = "B*" then opFillAndStroke "evenodd" st
  else if operator = "b" then opFillAndStroke "nonzero" (opClosePath st)
  else if operator = "b*" then opFillAndStroke "evenodd" (opClosePath st)
  else if operator = "n" then opEndPath st
  else if operator = "w" then opSetLineWidth operands st
  else if operator = "J" then opSetLineCap operands st
  else if operator = "j" then opSetLineJoin operands st
  else if operator = "d" then opSetDash operands st
  else if operator = "q" then opSaveState st
  else if operator = "Q" then opRestoreState st
  else if operator = "cm" then opConcatMatrix operands st
  else if operator = "g" then opSetGray operands "fill" st
  else if operator = "G" then opSetGray operands "stroke" st
  else if operator = "rg" then opSetRGB operands "fill" st
  else if operator = "RG" then opSetRGB operands "stroke" st
  else if operator = "k" then opSetCMYK operands "fill" st
  else if operator = "K" then opSetCMYK operands "stroke" st
  else if operator = "sc" || operator = "SC" || operator = "scn" ||
      operator = "SCN" then st
  else if operator = "BT" then opBeginText st
  else if operator = "ET" then opEndText st
  else if operator = "Tf" then opSetFont operands st
  else if operator = "Tm" then opSetTextMatrix operands st
  else if operator = "Td" then opMoveText operands st
  else if operator = "TD" then opMoveTextSetLeading operands st
  else if operator = "T*" then opNextLine st
  else if operator = "Tj" then opShowText operands st
  else if operator = "TJ" then opShowTextPositioned operands st
  else if operator = squoteStr then opShowText operands (opNextLine st)
  else if operator = dquoteStr then
    if operands.length ≥ 3 then
      opShowText [operands.getD 2 ""] (opNextLine st)
    else st
  else if operator = "Tc" || operator = "Tw" || operator = "Tz" ||
      operator = "TL" || operator = "Tr" || operator = "Ts" then st
  else st

/-- The operator test `/^[a-zA-Z'*]+$/` applied by processTokens. -/
def isOperatorToken (token : String) : Bool :=
  !token.isEmpty &&
    token.data.all (fun c => c.isAlpha || c = squote || c = Char.ofNat 42)

/-- One iteration of the processTokens loop: dispatch and clear the
operand stack for an operator token, push anything else. -/
def processTok (acc : ParserState × List String) (token : String) :
    ParserState × List String :=
  if isOperatorToken token then (executeOperator token acc.2 acc.1, [])
  else (acc.1, acc.2 ++ [token])

/-- `processTokens`. -/
def processTokens (tokens : List String) (st : ParserState) : ParserState :=
  (tokens.foldl processTok (st, [])).1

/-- `parseContentStream` on a decoded stream, starting from a freshly
constructed parser. -/
def runParser (content : String) : ParserState :=
  processTokens (tokenize content) initState

/- ### ToUnicode CMap decoding

JS strings are sequences of UTF-16 code units; both the text being decoded
and the values stored in the CMap are modelled as lists of code units
(naturals below 2^16).  A CMap maps an integer glyph code to the single
code unit `String.fromCharCode` produced for it. -/

/-- The per-position loop of `decodeWithCMap`: try the 2-byte big-endian
code (`(charCode << 8) | next`, skipping the second byte on a hit), fall
back to the 1-byte code, and keep the raw character when both miss. -/
def decodeWithCMapScalars (cmap : Nat → Option Nat) : List Nat → List Nat
  | [] => []
  | [c] =>
    match cmap c with
    | some u => [u]
    | none => [c]
  | c1 :: c2 :: rest =>
    match cmap (c1 <<< 8 ||| c2) with
    | some u => u :: decodeWithCMapScalars cmap rest
    | none =>
      match cmap c1 with
      | some u => u :: decodeWithCMapScalars cmap (c2 :: rest)
      | none => c1 :: decodeWithCMapScalars cmap (c2 :: rest)

/-- `decodeWithCMap`'s result: `return result || null` turns an empty
decoded string into null. -/
def decodeWithCMap (cmap : Nat → Option Nat) (text : List Nat) :
    Option (List Nat) :=
  let r := decodeWithCMapScalars cmap text
  if r = [] then none else some r

/-- `parseHexString` from pdf-content-parser.js: strip angle brackets and
parse the hex-digit prefix (`parseInt(hex, 16)`; no digits means NaN means
null). -/
def parseHexString (hexStr : String) : Option Nat :=
  let hex := hexStr.data.filter
    (fun c => !(c = Char.ofNat 60 || c = Char.ofNat 62))
  if hex = [] then none
  else
    let digs := hex.takeWhile isHexDigitJS
    if digs = [] then none
    else some (digs.foldl (fun n c => n * 16 + hexDigitVal c) 0)

/-- The inner loop of `parseCMap`'s bfrange handling: for every code from
`srcStart` to `srcEnd` inclusive, store
`String.fromCharCode(dst + (code - srcStart))` (a code unit, hence the
reduction modulo 2^16). -/
def applyBfrangeEntry (mapping : Nat → Option Nat)
    (srcStart srcEnd dst : Nat) : Nat → Option Nat :=
  (List.range' srcStart (srcEnd + 1 - srcStart)).foldl
    (fun m code =>
      Function.update m code (some ((dst + (code - srcStart)) % 65536)))
    mapping

/-- The loop of `parseCMap`'s bfchar handling: exact pairs. -/
def applyBfcharEntry (mapping : Nat → Option Nat) (src dst : Nat) :
    Nat → Option Nat :=
  Function.update mapping src (some (dst % 65536))

/- ### SVG path converter (svg-path-converter.js) -/

/-- A crop rectangle. -/
structure CropBox where
  x : ℚ
  y : ℚ
  width : ℚ
  height : ℚ
deriving DecidableEq, Repr

/-- Converter options, with the constructor's defaults. -/
structure ConvOptions where
  pdfWidth : ℚ := 612
  pdfHeight : ℚ := 792
  svgWidth : ℚ := 612
  svgHeight : ℚ := 792
  cropBox : Option CropBox := none
  precision : Nat := 3
  flipY : Bool := true
  applyTransform : Bool := true
deriving DecidableEq, Repr

/-- A converter built with `new SVGPathConverter({})`. -/
def defaultConvOptions : ConvOptions := {}

/-- Effective PDF width after cropping (calculateScaleFactors). -/
def effectivePdfWidth (o : ConvOptions) : ℚ :=
  match o.cropBox with
  | some cb => cb.width
  | none => o.pdfWidth

/-- Effective PDF height after cropping. -/
def effectivePdfHeight (o : ConvOptions) : ℚ :=
  match o.cropBox with
  | some cb => cb.height
  | none => o.pdfHeight

/-- `this.scaleX`. -/
def scaleX (o : ConvOptions) : ℚ := o.svgWidth / effectivePdfWidth o

/-- `this.scaleY`. -/
def scaleY (o : ConvOptions) : ℚ := o.svgHeight / effectivePdfHeight o

/-- `this.offsetX`. -/
def offsetX (o : ConvOptions) : ℚ :=
  match o.cropBox with
  | some cb => cb.x
  | none => 0

/-- `this.offsetY`. -/
def offsetY (o : ConvOptions) : ℚ :=
  match o.cropBox with
  | some cb => cb.y
  | none => 0

/-- The converter's view of a parser path.  The converter is handed
dynamic data, so the `subpaths` field may be absent — `convertPath`
guards on exactly that; `transform` may likewise be absent
(`transformPoint` checks it). -/
structure ConvPath where
  subpaths : Option (List Subpath)
  operation : Option String
  style : Style
  transform : Option PdfMatrix
deriving DecidableEq, Repr

/-- `transformPoint`: optional CTM application, crop offset, Y flip
against the effective height, then scaling. -/
def transformPoint (o : ConvOptions) (point : Point)
    (transform : Option PdfMatrix) : Point :=
  let p :=
    if o.applyTransform then
      match transform with
      | some t =>
        Point.mk (t.a * point.x + t.c * point.y + t.e)
          (t.b * point.x + t.d * point.y + t.f)
      | none => point
    else point
  let x := p.x - offsetX o
  let y := p.y - offsetY o
  let y := if o.flipY then effectivePdfHeight o - y else y
  ⟨x * scaleX o, y * scaleY o⟩

/-- JS `toFixed(prec)`: round to `prec` decimal places, ties towards the
larger value.  (JS formats a negative value rounding to zero as "-0.000";
this model drops that sign.  No settled claim inspects formatted digits.) -/
def toFixedJS (prec : Nat) (x : ℚ) : String :=
  let scaled : Int := Rat.floor (x * (10 : ℚ) ^ prec + 1 / 2)
  let sign := if scaled < 0 then "-" else ""
  let a := scaled.natAbs
  if prec = 0 then sign ++ toString (a : Nat)
  else
    sign ++ toString (a / 10 ^ prec) ++ "." ++
      padStart prec (Char.ofNat 48) (toString (a % 10 ^ prec))

/-- `formatCoord`. -/
def formatCoord (o : ConvOptions) (coord : ℚ) : String :=
  toFixedJS o.precision coord

/-- `convertLine`. -/
def convertLine (o : ConvOptions) (pt : Point)
    (transform : Option PdfMatrix) : String :=
  let p := transformPoint o pt transform
  "L " ++ formatCoord o p.x ++ " " ++ formatCoord o p.y

/-- `convertCubic`. -/
def convertCubic (o : ConvOptions) (cp1 cp2 pt : Point)
    (transform : Option PdfMatrix) : String :=
  let q1 := transformPoint o cp1 transform
  let q2 := transformPoint o cp2 transform
  let p := transformPoint o pt transform
  "C " ++ formatCoord o q1.x ++ " " ++ formatCoord o q1.y ++ " " ++
    formatCoord o q2.x ++ " " ++ formatCoord o q2.y ++ " " ++
    formatCoord o p.x ++ " " ++ formatCoord o p.y

/-- `convertSegment` (the parser never emits the quadratic variant). -/
def convertSegment (o : ConvOptions) (seg : Segment)
    (transform : Option PdfMatrix) : String :=
  match seg with
  | .line pt => convertLine o pt transform
  | .cubic cp1 cp2 pt => convertCubic o cp1 cp2 pt transform

/-- `buildPathData`: one moveto per subpath, one command per segment, a
closepath marker for closed subpaths, joined by single spaces. -/
def buildPathData (o : ConvOptions) (subpaths : List Subpath)
    (transform : Option PdfMatrix) : String :=
  let parts := subpaths.foldl
    (fun parts sp =>
      let start := transformPoint o sp.startPoint transform
      let parts := parts ++
        ["M " ++ formatCoord o start.x ++ " " ++ formatCoord o start.y]
      let parts := parts ++ sp.segments.map (fun seg => convertSegment o seg transform)
      if sp.closed then parts ++ ["Z"] else parts)
    []
  String.intercalate " " parts

/-- The SVG style attribute set assembled by `buildStyle`. -/
structure SVGStyle where
  fill : Option String := none
  fillOpacity : Option ℚ := none
  fillRule : Option String := none
  stroke : Option String := none
  strokeWidth : Option ℚ := none
  strokeLinecap : Option String := none
  strokeLinejoin : Option String := none
  strokeDasharray : Option String := none
deriving DecidableEq, Repr

/-- JS truthiness for an optional string field (absent or empty is
falsy). -/
def truthyStr : Option String → Option String
  | some s => if s = "" then none else some s
  | none => none

/-- `buildStyle`. -/
def buildStyle (o : ConvOptions) (style : Style) (operation : Option String) :
    SVGStyle :=
  let base : SVGStyle := {}
  let base :=
    if operation = some "fill" || operation = some "fill-stroke" then
      { base with
          fill := some ((truthyStr style.fill).getD "#000000")
          fillOpacity := style.fillOpacity
          fillRule := truthyStr style.fillRule }
    else { base with fill := some "none" }
  if operation = some "stroke" || operation = some "fill-stroke" then
    { base with
        stroke := some ((truthyStr style.stroke).getD "#000000")
        strokeWidth :=
          match style.strokeWidth with
          | some w => some (w * min (scaleX o) (scaleY o))
          | none => none
        strokeLinecap := truthyStr style.strokeLinecap
        strokeLinejoin := truthyStr style.strokeLinejoin
        strokeDasharray := truthyStr style.strokeDasharray }
  else base

/-- The record `convertPath` returns for a path that has geometry. -/
structure SVGPathElem where
  d : String
  style : SVGStyle
  operation : Option String
  originalPath : ConvPath
deriving DecidableEq, Repr

/-- `convertPath`: null in, null out; a missing or empty subpath list also
yields null. -/
def convertPath (o : ConvOptions) (path : Option ConvPath) :
    Option SVGPathElem :=
  match path with
  | none => none
  | some p =>
    match p.subpaths with
    | none => none
    | some [] => none
    | some sps =>
      some
        { d := buildPathData o sps p.transform
          style := buildStyle o p.style p.operation
          operation := p.operation
          originalPath := p }

/-- `convertPaths`: map then drop the null results. -/
def convertPaths (o : ConvOptions) (paths : List (Option ConvPath)) :
    List (Option SVGPathElem) :=
  (paths.map (convertPath o)).filter (fun r => r.isSome)

/- ### calculateBounds -/

/-- `Math.min` step against an accumulator that starts at Infinity
(`none` models the untouched accumulator). -/
def updMin (acc : Option ℚ) (v : ℚ) : Option ℚ :=
  some (match acc with | none => v | some m => min m v)

/-- `Math.max` step against an accumulator that starts at -Infinity. -/
def updMax (acc : Option ℚ) (v : ℚ) : Option ℚ :=
  some (match acc with | none => v | some m => max m v)

/-- The four running accumulators of `calculateBounds`. -/
structure BoundsAcc where
  minX : Option ℚ
  minY : Option ℚ
  maxX : Option ℚ
  maxY : Option ℚ
deriving DecidableEq, Repr

/-- Feed one raw point into all four accumulators. -/
def accPoint (acc : BoundsAcc) (p : Point) : BoundsAcc :=
  { minX := updMin acc.minX p.x
    minY := updMin acc.minY p.y
    maxX := updMax acc.maxX p.x
    maxY := updMax acc.maxY p.y }

/-- The points `calculateBounds` inspects in one segment, in source order
(`segment.point`, then the control points). -/
def segBoundsPoints : Segment → List Point
  | .line pt => [pt]
  | .cubic cp1 cp2 pt => [pt, cp1, cp2]

/-- The segment loop of `calculateBounds`. -/
def accSegment (acc : BoundsAcc) (seg : Segment) : BoundsAcc :=
  (segBoundsPoints seg).foldl accPoint acc

/-- The subpath loop of `calculateBounds`: start point, then segments. -/
def accSubpath (acc : BoundsAcc) (sp : Subpath) : BoundsAcc :=
  sp.segments.foldl accSegment (accPoint acc sp.startPoint)

/-- The path loop of `calculateBounds` (`path.subpaths || []`). -/
def accPath (acc : BoundsAcc) (p : ConvPath) : BoundsAcc :=
  (p.subpaths.getD []).foldl accSubpath acc

/-- The bounding box `calculateBounds` returns.  With no points at all the
JS code returns infinite/NaN fields; that case is modelled as `none`. -/
structure Bounds where
  x : Option ℚ
  y : Option ℚ
  width : Option ℚ
  height : Option ℚ
deriving DecidableEq, Repr

/-- Subtraction lifted to the optional accumulators. -/
def optSub : Option ℚ → Option ℚ → Option ℚ
  | some u, some v => some (u - v)
  | _, _ => none

/-- `calculateBounds` from svg-path-converter.js: min/max accumulation
over the RAW (untransformed) geometry points. -/
def calculateBounds (paths : List ConvPath) : Bounds :=
  let acc := paths.foldl accPath ⟨none, none, none, none⟩
  { x := acc.minX
    y := acc.minY
    width := optSub acc.maxX acc.minX
    height := optSub acc.maxY acc.minY }

/-- All raw points of one subpath, in the order `calculateBounds` visits
them. -/
def subpathRawPoints (sp : Subpath) : List Point :=
  sp.startPoint :: sp.segments.flatMap segBoundsPoints

/-- All raw points of one path. -/
def pathRawPoints (p : ConvPath) : List Point :=
  (p.subpaths.getD []).flatMap subpathRawPoints

/-- All raw points of a path list. -/
def allRawPoints (paths : List ConvPath) : List Point :=
  paths.flatMap pathRawPoints

/-- Componentwise min/max bounding box of a point list. -/
def boundsOfPointList (pts : List Point) : Bounds :=
  { x := (pts.map Point.x).min?
    y := (pts.map Point.y).min?
    width := optSub ((pts.map Point.x).max?) ((pts.map Point.x).min?)
    height := optSub ((pts.map Point.y).max?) ((pts.map Point.y).min?) }

/-- Modelled from the claim's words (not from the source): the bounding
box as the componentwise min/max over all points after mapping each one
through the coordinate transformation (`transformPoint` with the path's
transform).  `calculateBounds` is compared against this. -/
def boundsOverTransformedPoints (o : ConvOptions) (paths : List ConvPath) :
    Bounds :=
  boundsOfPointList
    (paths.flatMap (fun p =>
      (pathRawPoints p).map (fun pt => transformPoint o pt p.transform)))

/- ### Derived definitions used by the theorems -/

/-- The graphics-state effect of a sequence of `cm` operators whose
operand matrices are already parsed: each one runs the update of
opConcatMatrix (`ctm := multiplyMatrices ctm m`). -/
def applyCms (gs : GraphicsState) (ms : List PdfMatrix) : GraphicsState :=
  ms.foldl (fun g m => { g with ctm := multiplyMatrices g.ctm m }) gs

/-- The product `M1 · M2 · ... · Mn` of the operand matrices in operator
order, under `multiplyMatrices`. -/
def prodMats (ms : List PdfMatrix) : PdfMatrix :=
  ms.foldr multiplyMatrices idMatrix

/-- The operators whose handlers guard on an operand count, with the
count they require.  The dash operator `d` and the single-quote operator
have no such guard in the source and are deliberately absent (see the C5
counterexample). -/
def requiredOperandCounts : List (String × Nat) :=
  [("m", 2), ("l", 2), ("c", 6), ("v", 4), ("y", 4), ("re", 4),
   ("w", 1), ("J", 1), ("j", 1), ("cm", 6),
   ("g", 1), ("G", 1), ("rg", 3), ("RG", 3), ("k", 4), ("K", 4),
   ("Tf", 2), ("Tm", 6), ("Td", 2), ("TD", 2), ("Tj", 1), ("TJ", 1),
   (dquoteStr, 3)]

/-- The open path built by the single operator `10 10 m` from a fresh
parser. -/
def moveOnlyPath : Path :=
  { subpaths := [{ segments := [], closed := false, startPoint := ⟨10, 10⟩ }]
    currentPoint := some ⟨10, 10⟩
    operation := none
    style := {}
    transform := idMatrix }

/-- The parser state after running the stream `10 10 m`. -/
def moveOnlyState : ParserState := runParser "10 10 m"

/-- A converter path under an identity CTM with raw points (10,10) and
(50,50). -/
def diagPath : ConvPath :=
  { subpaths := some
      [{ segments := [.line ⟨50, 50⟩], closed := false, startPoint := ⟨10, 10⟩ }]
    operation := some "stroke"
    style := {}
    transform := some idMatrix }

/-- A converter path whose subpath list is present but empty. -/
def emptySubpathsPath : ConvPath :=
  { subpaths := some []
    operation := none
    style := {}
    transform := none }

/-- A CMap with a single two-byte mapping 0x4142 -> 0x2603. -/
def cmapTwoByte : Nat → Option Nat :=
  fun n => if n = 16706 then some 9731 else none

/-- A CMap with a single one-byte mapping 0x41 -> 0x61. -/
def cmapOneByte : Nat → Option Nat :=
  fun n => if n = 65 then some 97 else none

/- ## Theorems -/

/- ### Matrix algebra helpers -/

theorem multiplyMatrices_id_left (m : PdfMatrix) :
    multiplyMatrices idMatrix m = m := by
  obtain ⟨a, b, c, d, e, f⟩ := m
  simp [multiplyMatrices, idMatrix]

theorem multiplyMatrices_id_right (m : PdfMatrix) :
    multiplyMatrices m idMatrix = m := by
  obtain ⟨a, b, c, d, e, f⟩ := m
  simp [multiplyMatrices, idMatrix]

theorem multiplyMatrices_assoc (m1 m2 m3 : PdfMatrix) :
    multiplyMatrices (multiplyMatrices m1 m2) m3 =
      multiplyMatrices m1 (multiplyMatrices m2 m3) := by
  obtain ⟨a1, b1, c1, d1, e1, f1⟩ := m1
  obtain ⟨a2, b2, c2, d2, e2, f2⟩ := m2
  obtain ⟨a3, b3, c3, d3, e3, f3⟩ := m3
  simp only [multiplyMatrices, PdfMatrix.mk.injEq]
  refine ⟨by ring, by ring, by ring, by ring, by ring, by ring⟩

theorem applyCms_ctm (gs : GraphicsState) (ms : List PdfMatrix) :
    (applyCms gs ms).ctm = ms.foldl multiplyMatrices gs.ctm := by
  induction ms generalizing gs with
  | nil => rfl
  | cons m ms ih => simpa [applyCms] using ih { gs with ctm := multiplyMatrices gs.ctm m }

theorem foldl_multiplyMatrices (a : PdfMatrix) (ms : List PdfMatrix) :
    ms.foldl multiplyMatrices a = multiplyMatrices a (prodMats ms) := by
  induction ms generalizing a with
  | nil => simp [prodMats, multiplyMatrices_id_right]
  | cons m ms ih =>
    simp only [List.foldl_cons, ih, prodMats, List.foldr_cons]
    rw [← multiplyMatrices_assoc]

/-- C3: executing a sequence of `cm` operators with operand matrices
M1, ..., Mn from the identity CTM leaves the CTM equal to the product
M1 · M2 · ... · Mn in operator order, where the composition is the stated
2x3 row-vector formula (spelled out for the translation coefficients in
the second conjunct). -/
theorem c3_cm_product (ms : List PdfMatrix) :
    (applyCms {} ms).ctm = prodMats ms ∧
      ∀ m1 m2 : PdfMatrix,
        (multiplyMatrices m1 m2).e = m1.e * m2.a + m1.f * m2.c + m2.e ∧
          (multiplyMatrices m1 m2).f = m1.e * m2.b + m1.f * m2.d + m2.f := by
  refine ⟨?_, fun m1 m2 => ⟨rfl, rfl⟩⟩
  rw [applyCms_ctm, foldl_multiplyMatrices]
  exact multiplyMatrices_id_left _

/- ### Save / restore -/

/-- C2: `q` immediately followed by `Q` restores the graphics state
field-for-field (colors, line style, dash, and the six CTM coefficients),
and it leaves the saved-state stack as it was; `Q` on an empty stack is a
no-op. -/
theorem c2_save_restore (st : ParserState) (ops1 ops2 : List String) :
    (let st2 := executeOperator "Q" ops2 (executeOperator "q" ops1 st)
     st2.graphicsState.fillColor = st.graphicsState.fillColor ∧
     st2.graphicsState.strokeColor = st.graphicsState.strokeColor ∧
     st2.graphicsState.lineWidth = st.graphicsState.lineWidth ∧
     st2.graphicsState.lineCap = st.graphicsState.lineCap ∧
     st2.graphicsState.lineJoin = st.graphicsState.lineJoin ∧
     st2.graphicsState.dashArray = st.graphicsState.dashArray ∧
     st2.graphicsState.ctm.a = st.graphicsState.ctm.a ∧
     st2.graphicsState.ctm.b = st.graphicsState.ctm.b ∧
     st2.graphicsState.ctm.c = st.graphicsState.ctm.c ∧
     st2.graphicsState.ctm.d = st.graphicsState.ctm.d ∧
     st2.graphicsState.ctm.e = st.graphicsState.ctm.e ∧
     st2.graphicsState.ctm.f = st.graphicsState.ctm.f ∧
     st2.stateStack = st.stateStack) ∧
    (st.stateStack = [] → executeOperator "Q" ops2 st = st) := by
  constructor
  · exact ⟨rfl, rfl, rfl, rfl, rfl, rfl, rfl, rfl, rfl, rfl, rfl, rfl, rfl⟩
  · intro h
    show opRestoreState st = st
    unfold opRestoreState
    rw [h]

/-- Closed instance of c2_save_restore: `Q` on the freshly constructed
parser (whose stack is empty) changes nothing. -/
theorem c2_save_restore_witness :
    executeOperator "Q" [] initState = initState :=
  (c2_save_restore initState [] []).2 rfl

/- ### Operand stack clearing -/

/-- C4: after the processTokens loop dispatches any operator token
(recognized or not), the operand stack is the empty list. -/
theorem c4_operand_stack_cleared (st : ParserState) (stack : List String)
    (token : String) (h : isOperatorToken token = true) :
    (processTok (st, stack) token).2 = [] := by
  simp [processTok, h]

/-- Closed instance of c4_operand_stack_cleared at the unrecognized
operator token `zz` with a nonempty operand stack. -/
theorem c4_operand_stack_cleared_witness :
    isOperatorToken "zz" = true ∧
      (processTok (initState, ["1", "2"]) "zz").2 = [] :=
  ⟨by decide, c4_operand_stack_cleared initState ["1", "2"] "zz" (by decide)⟩

/- ### The stroked-square scenario -/

/-- C1: the stream `1 0 0 RG 10 10 m 50 10 l 50 50 l 10 50 l h S` yields
exactly one completed path, with operation stroke, stroke color #ff0000,
and a single closed subpath starting at (10,10) with exactly the three
line segments to (50,10), (50,50), (10,50). -/
theorem c1_scenario :
    (runParser "1 0 0 RG 10 10 m 50 10 l 50 50 l 10 50 l h S").paths.map
        Path.operation = [some "stroke"] ∧
    (runParser "1 0 0 RG 10 10 m 50 10 l 50 50 l 10 50 l h S").paths.map
        (fun p => p.style.stroke) = [some "#ff0000"] ∧
    (runParser "1 0 0 RG 10 10 m 50 10 l 50 50 l 10 50 l h S").paths.map
        (fun p => p.subpaths.map
          (fun sp => (sp.startPoint, sp.segments, sp.closed))) =
      [[(⟨10, 10⟩,
         [Segment.line ⟨50, 10⟩, Segment.line ⟨50, 50⟩, Segment.line ⟨10, 50⟩],
         true)]] :=
  ⟨by rfl, by with_unfolding_all rfl, by with_unfolding_all rfl⟩

/- ### Handlers are no-ops on short operand lists -/

theorem opMoveTo_short {operands : List String} (h : operands.length < 2)
    (st : ParserState) : opMoveTo operands st = st := by
  simp [opMoveTo, h]

theorem opLineTo_short {operands : List String} (h : operands.length < 2)
    (st : ParserState) : opLineTo operands st = st := by
  simp [opLineTo, h]

theorem opCurveTo_short {operands : List String} (h : operands.length < 6)
    (st : ParserState) : opCurveTo operands st = st := by
  simp [opCurveTo, h]

theorem opCurveToV_short {operands : List String} (h : operands.length < 4)
    (st : ParserState) : opCurveToV operands st = st := by
  simp [opCurveToV, h]

theorem opCurveToY_short {operands : List String} (h : operands.length < 4)
    (st : ParserState) : opCurveToY operands st = st := by
  simp [opCurveToY, h]

theorem opRectangle_short {operands : List String} (h : operands.length < 4)
    (st : ParserState) : opRectangle operands st = st := by
  simp [opRectangle, h]

theorem opSetLineWidth_short {operands : List String} (h : operands.length < 1)
    (st : ParserState) : opSetLineWidth operands st = st := by
  simp [opSetLineWidth, h]

theorem opSetLineCap_short {operands : List String} (h : operands.length < 1)
    (st : ParserState) : opSetLineCap operands st = st := by
  simp [opSetLineCap, h]

theorem opSetLineJoin_short {operands : List String} (h : operands.length < 1)
    (st : ParserState) : opSetLineJoin operands st = st := by
  simp [opSetLineJoin, h]

theorem opConcatMatrix_short {operands : List String} (h : operands.length < 6)
    (st : ParserState) : opConcatMatrix operands st = st := by
  simp [opConcatMatrix, h]

theorem opSetGray_short {operands : List String} (h : operands.length < 1)
    (target : String) (st : ParserState) : opSetGray operands target st = st := by
  simp [opSetGray, h]

theorem opSetRGB_short {operands : List String} (h : operands.length < 3)
    (target : String) (st : ParserState) : opSetRGB operands target st = st := by
  simp [opSetRGB, h]

theorem opSetCMYK_short {operands : List String} (h : operands.length < 4)
    (target : String) (st : ParserState) : opSetCMYK operands target st = st := by
  simp [opSetCMYK, h]

theorem opSetFont_short {operands : List String} (h : operands.length < 2)
    (st : ParserState) : opSetFont operands st = st := by
  simp [opSetFont, not_le.mpr h]

theorem opSetTextMatrix_short {operands : List String} (h : operands.length < 6)
    (st : ParserState) : opSetTextMatrix operands st = st := by
  simp [opSetTextMatrix, not_le.mpr h]

theorem opMoveText_short {operands : List String} (h : operands.length < 2)
    (st : ParserState) : opMoveText operands st = st := by
  simp [opMoveText, not_le.mpr h]

theorem opShowText_short {operands : List String} (h : operands.length < 1)
    (st : ParserState) : opShowText operands st = st := by
  have h0 : operands.length = 0 := Nat.lt_one_iff.mp h
  simp [opShowText, h0]

theorem opShowTextPositioned_short {operands : List String}
    (h : operands.length < 1) (st : ParserState) :
    opShowTextPositioned operands st = st := by
  have h0 : operands.length = 0 := Nat.lt_one_iff.mp h
  simp [opShowTextPositioned, h0]

theorem dquote_short {operands : List String} (h : operands.length < 3)
    (st : ParserState) : executeOperator dquoteStr operands st = st := by
  have hd : executeOperator dquoteStr operands st =
      if operands.length ≥ 3 then opShowText [operands.getD 2 ""] (opNextLine st)
      else st := rfl
  rw [hd, if_neg (not_le.mpr h)]

/-- C5 (amended): every operand-requiring handler EXCEPT the dash
operator `d` and the single-quote operator silently leaves the entire
parser state (paths, current path, graphics state, text state) unchanged
when dispatched with fewer operands than it requires.  (`d` overwrites
dashArray with the joined operands unconditionally, and the single-quote
operator performs its line advance even with no operands — see the
counterexample.) -/
theorem c5_amended (st : ParserState) (op : String) (n : Nat)
    (operands : List String)
    (hmem : (op, n) ∈ requiredOperandCounts) (hlen : operands.length < n) :
    executeOperator op operands st = st := by
  simp only [requiredOperandCounts] at hmem
  fin_cases hmem
  exacts [opMoveTo_short hlen st, opLineTo_short hlen st,
    opCurveTo_short hlen st, opCurveToV_short hlen st, opCurveToY_short hlen st,
    opRectangle_short hlen st, opSetLineWidth_short hlen st,
    opSetLineCap_short hlen st, opSetLineJoin_short hlen st,
    opConcatMatrix_short hlen st, opSetGray_short hlen "fill" st,
    opSetGray_short hlen "stroke" st, opSetRGB_short hlen "fill" st,
    opSetRGB_short hlen "stroke" st, opSetCMYK_short hlen "fill" st,
    opSetCMYK_short hlen "stroke" st, opSetFont_short hlen st,
    opSetTextMatrix_short hlen st, opMoveText_short hlen st,
    opMoveText_short hlen st, opShowText_short hlen st,
    opShowTextPositioned_short hlen st, dquote_short hlen st]

/-- Closed instance of c5_amended: `m` with a single operand does
nothing. -/
theorem c5_amended_witness : executeOperator "m" ["5"] initState = initState :=
  c5_amended initState "m" 2 ["5"] (by decide) (by decide)

/-- C5 counterexample: the dash operator requires two operands (a dash
array and a phase), yet executed with zero operands it still overwrites
the graphics state's dashArray — the claim that EVERY under-supplied
operator leaves the state unchanged is false.  The starting state is
reached by an earlier well-formed dash command. -/
theorem c5_counterexample :
    ((executeOperator "d" ["[", "4", "2", "]", "0"] initState).graphicsState.dashArray
        = "[ 4 2 ] 0") ∧
    ((executeOperator "d" []
        (executeOperator "d" ["[", "4", "2", "]", "0"] initState)).graphicsState.dashArray
        = "") ∧
    executeOperator "d" [] (executeOperator "d" ["[", "4", "2", "]", "0"] initState) ≠
      executeOperator "d" ["[", "4", "2", "]", "0"] initState := by
  refine ⟨by rfl, by rfl, fun h => ?_⟩
  have h2 := congrArg (fun s => s.graphicsState.dashArray) h
  simp only [] at h2
  rw [show (executeOperator "d" []
      (executeOperator "d" ["[", "4", "2", "]", "0"] initState)).graphicsState.dashArray
      = "" from rfl] at h2
  rw [show (executeOperator "d" ["[", "4", "2", "]", "0"] initState).graphicsState.dashArray
      = "[ 4 2 ] 0" from rfl] at h2
  exact absurd h2 (by decide)

/- ### Path style and transform snapshots -/

/-- C7 (amended): every painting handler that completes a path —
opStroke (for `S`/`s`), opFill (for `f`/`F`/`f*`/`b`... via the shared
dispatch) and opFillAndStroke (for `B`/`B*`/`b`/`b*`) — copies the style
fields from the graphics state as it is at that instant, but it leaves
the path's `transform` exactly as it was recorded when the path object
was created by the first construction operator (`createPath` snapshots
the CTM at creation time); a `cm` executed between construction and
painting is NOT reflected in the completed path's transform. -/
theorem c7_amended (st : ParserState) (p : Path) (fillRule : String)
    (h : st.currentPath = some p) :
    opStroke st =
      { st with
          currentPath := none
          paths := st.paths ++
            [{ p with
                 operation := some "stroke"
                 style :=
                   { p.style with
                       stroke := some st.graphicsState.strokeColor
                       strokeWidth := some st.graphicsState.lineWidth
                       strokeLinecap := some st.graphicsState.lineCap
                       strokeLinejoin := some st.graphicsState.lineJoin
                       strokeDasharray := some st.graphicsState.dashArray } }] } ∧
    opFill fillRule st =
      { st with
          currentPath := none
          paths := st.paths ++
            [{ p with
                 operation := some "fill"
                 style :=
                   { p.style with
                       fill := some st.graphicsState.fillColor
                       fillRule := some fillRule } }] } ∧
    opFillAndStroke fillRule st =
      { st with
          currentPath := none
          paths := st.paths ++
            [{ p with
                 operation := some "fill-stroke"
                 style :=
                   { p.style with
                       fill := some st.graphicsState.fillColor
                       fillRule := some fillRule
                       stroke := some st.graphicsState.strokeColor
                       strokeWidth := some st.graphicsState.lineWidth
                       strokeLinecap := some st.graphicsState.lineCap
                       strokeLinejoin := some st.graphicsState.lineJoin } }] } ∧
    (createPath st).transform = st.graphicsState.ctm := by
  refine ⟨?_, ?_, ?_, rfl⟩
  · unfold opStroke
    rw [h]
    rfl
  · unfold opFill
    rw [h]
    rfl
  · unfold opFillAndStroke
    rw [h]
    rfl

/-- Closed instance of c7_amended at the state reached by `10 10 m`,
for all three path-completing painting handlers. -/
theorem c7_amended_witness :
    (opStroke moveOnlyState =
      { moveOnlyState with
          currentPath := none
          paths := moveOnlyState.paths ++
            [{ moveOnlyPath with
                 operation := some "stroke"
                 style :=
                   { moveOnlyPath.style with
                       stroke := some moveOnlyState.graphicsState.strokeColor
                       strokeWidth := some moveOnlyState.graphicsState.lineWidth
                       strokeLinecap := some moveOnlyState.graphicsState.lineCap
                       strokeLinejoin := some moveOnlyState.graphicsState.lineJoin
                       strokeDasharray :=
                         some moveOnlyState.graphicsState.dashArray } }] }) ∧
    (opFill "nonzero" moveOnlyState =
      { moveOnlyState with
          currentPath := none
          paths := moveOnlyState.paths ++
            [{ moveOnlyPath with
                 operation := some "fill"
                 style :=
                   { moveOnlyPath.style with
                       fill := some moveOnlyState.graphicsState.fillColor
                       fillRule := some "nonzero" } }] }) ∧
    (opFillAndStroke "nonzero" moveOnlyState =
      { moveOnlyState with
          currentPath := none
          paths := moveOnlyState.paths ++
            [{ moveOnlyPath with
                 operation := some "fill-stroke"
                 style :=
                   { moveOnlyPath.style with
                       fill := some moveOnlyState.graphicsState.fillColor
                       fillRule := some "nonzero"
                       stroke := some moveOnlyState.graphicsState.strokeColor
                       strokeWidth := some moveOnlyState.graphicsState.lineWidth
                       strokeLinecap := some moveOnlyState.graphicsState.lineCap
                       strokeLinejoin :=
                         some moveOnlyState.graphicsState.lineJoin } }] }) ∧
      (createPath moveOnlyState).transform = moveOnlyState.graphicsState.ctm :=
  c7_amended moveOnlyState moveOnlyPath "nonzero" (by with_unfolding_all rfl)

/-- C7 counterexample: in
`10 10 m 2 0 0 2 0 0 cm 20 20 l S` the `cm` runs between path
construction and painting; the completed path's transform is the
identity CTM recorded at creation, not the CTM at painting time
(which is the doubled matrix) — so the claimed painting-time transform
snapshot is false. -/
theorem c7_counterexample :
    (runParser "10 10 m 2 0 0 2 0 0 cm 20 20 l S").paths.map Path.transform
        = [idMatrix] ∧
    (runParser "10 10 m 2 0 0 2 0 0 cm 20 20 l S").graphicsState.ctm
        = { a := 2, b := 0, c := 0, d := 2, e := 0, f := 0 } ∧
    idMatrix ≠ ({ a := 2, b := 0, c := 0, d := 2, e := 0, f := 0 } : PdfMatrix) := by
  refine ⟨by with_unfolding_all rfl, by with_unfolding_all rfl, fun h => ?_⟩
  have h2 := congrArg PdfMatrix.a h
  simp only [idMatrix] at h2
  norm_num at h2

/- ### The TJ pipeline -/

/-- C6 (code evaluation): in the pipeline, the array operand of `TJ` is
split by the tokenizer into separate tokens, so the handler — which
extracts strings from `operands[0]` only — receives the lone token `[`
and emits no text run at all, although the array contains two literal
strings. -/
theorem c6_tj_pipeline :
    extractParenGroups "[(A) -5 (B)]" = ["A", "B"] ∧
    (tokenize "BT [(A) -5 (B)] TJ ET")
        = ["BT", "[", "(A)", "-5", "(B)", "]", "TJ", "ET"] ∧
    (runParser "BT [(A) -5 (B)] TJ ET").textObjects = [] :=
  ⟨by rfl, by rfl, by with_unfolding_all rfl⟩

/- ### CMap decoding -/

theorem rangeFoldUpdate_lt (v : Nat → Option Nat) (code : Nat) :
    ∀ (len start : Nat) (m : Nat → Option Nat), code < start →
    ((List.range' start len).foldl (fun m c => Function.update m c (v c)) m)
      code = m code := by
  intro len
  induction len with
  | zero => intro start m h; rfl
  | succ len ih =>
    intro start m h
    show ((List.range' (start + 1) len).foldl _
      (Function.update m start (v start))) code = m code
    rw [ih (start + 1) _ (by omega)]
    exact Function.update_noteq (by omega) _ m

theorem rangeFoldUpdate_mem (v : Nat → Option Nat) (code : Nat) :
    ∀ (len start : Nat) (m : Nat → Option Nat), start ≤ code →
    code < start + len →
    ((List.range' start len).foldl (fun m c => Function.update m c (v c)) m)
      code = v code := by
  intro len
  induction len with
  | zero => intro start m h1 h2; omega
  | succ len ih =>
    intro start m h1 h2
    show ((List.range' (start + 1) len).foldl _
      (Function.update m start (v start))) code = v code
    rcases Nat.lt_or_ge code (start + 1) with hlt | hge
    · have hcode : code = start := by omega
      subst hcode
      rw [rangeFoldUpdate_lt v code len (code + 1) _ (by omega)]
      simp
    · exact ih (start + 1) _ hge (by omega)

theorem applyBfrangeEntry_lookup (m : Nat → Option Nat) (s e d code : Nat)
    (h1 : s ≤ code) (h2 : code ≤ e) :
    applyBfrangeEntry m s e d code = some ((d + (code - s)) % 65536) := by
  unfold applyBfrangeEntry
  exact rangeFoldUpdate_mem (fun c => some ((d + (c - s)) % 65536)) code
    (e + 1 - s) s m h1 (by omega)

/-- C8: with a parsed ToUnicode CMap, decoding walks the byte string
position by position — the 2-byte big-endian code at the position is
looked up first (consuming both bytes on a hit); if unmapped, the 1-byte
code is looked up; if that is also unmapped, the raw character is kept
unchanged in the output (no character is ever dropped).  A bfrange entry
maps every code in the inclusive range [start, end] to the destination
scalar incremented by the code's offset from the range start. -/
theorem c8_cmap_decode :
    (∀ (cmap : Nat → Option Nat) (c1 c2 : Nat) (rest : List Nat) (u : Nat),
        cmap (c1 <<< 8 ||| c2) = some u →
          decodeWithCMapScalars cmap (c1 :: c2 :: rest) =
            u :: decodeWithCMapScalars cmap rest) ∧
    (∀ (cmap : Nat → Option Nat) (c1 c2 : Nat) (rest : List Nat) (u : Nat),
        cmap (c1 <<< 8 ||| c2) = none → cmap c1 = some u →
          decodeWithCMapScalars cmap (c1 :: c2 :: rest) =
            u :: decodeWithCMapScalars cmap (c2 :: rest)) ∧
    (∀ (cmap : Nat → Option Nat) (c1 c2 : Nat) (rest : List Nat),
        cmap (c1 <<< 8 ||| c2) = none → cmap c1 = none →
          decodeWithCMapScalars cmap (c1 :: c2 :: rest) =
            c1 :: decodeWithCMapScalars cmap (c2 :: rest)) ∧
    (∀ (m : Nat → Option Nat) (s e d code : Nat), s ≤ code → code ≤ e →
        applyBfrangeEntry m s e d code = some ((d + (code - s)) % 65536)) := by
  refine ⟨?_, ?_, ?_, fun m s e d code h1 h2 =>
    applyBfrangeEntry_lookup m s e d code h1 h2⟩
  · intro cmap c1 c2 rest u h
    simp [decodeWithCMapScalars, h]
  · intro cmap c1 c2 rest u h h1
    simp [decodeWithCMapScalars, h, h1]
  · intro cmap c1 c2 rest h h1
    simp [decodeWithCMapScalars, h, h1]

/-- Closed instances of c8_cmap_decode: a two-byte hit consumes both
bytes; a miss falls back to the one-byte code; unmapped characters pass
through; and the bfrange `<0041> <0043> <0061>` sends 0x42 to 0x62. -/
theorem c8_cmap_decode_witness :
    decodeWithCMapScalars cmapTwoByte [65, 66] = [9731] ∧
    decodeWithCMapScalars cmapOneByte [65, 66, 67] = [97, 66, 67] ∧
    applyBfrangeEntry (fun _ => none) 65 67 97 66 = some 98 := by
  refine ⟨?_, ?_, ?_⟩
  · rw [c8_cmap_decode.1 cmapTwoByte 65 66 [] 9731 (by decide)]
    rfl
  · rw [c8_cmap_decode.2.1 cmapOneByte 65 66 [67] 97 (by decide) (by decide),
      c8_cmap_decode.2.2.1 cmapOneByte 66 67 [] (by decide) (by decide)]
    rfl
  · exact c8_cmap_decode.2.2.2 (fun _ => none) 65 67 97 66 (by decide) (by decide)

/- ### Bounding box -/

theorem foldl_updMin_some (m : ℚ) (l : List ℚ) :
    l.foldl updMin (some m) = some (l.foldl min m) := by
  induction l generalizing m with
  | nil => rfl
  | cons a l ih => exact ih (min m a)

theorem foldl_updMax_some (m : ℚ) (l : List ℚ) :
    l.foldl updMax (some m) = some (l.foldl max m) := by
  induction l generalizing m with
  | nil => rfl
  | cons a l ih => exact ih (max m a)

theorem foldl_updMin_eq_min? (l : List ℚ) : l.foldl updMin none = l.min? := by
  cases l with
  | nil => rfl
  | cons a l => exact foldl_updMin_some a l

theorem foldl_updMax_eq_max? (l : List ℚ) : l.foldl updMax none = l.max? := by
  cases l with
  | nil => rfl
  | cons a l => exact foldl_updMax_some a l

theorem foldl_accPoint_components (pts : List Point) (acc : BoundsAcc) :
    pts.foldl accPoint acc =
      { minX := (pts.map Point.x).foldl updMin acc.minX
        minY := (pts.map Point.y).foldl updMin acc.minY
        maxX := (pts.map Point.x).foldl updMax acc.maxX
        maxY := (pts.map Point.y).foldl updMax acc.maxY } := by
  induction pts generalizing acc with
  | nil => rfl
  | cons p pts ih => exact ih (accPoint acc p)

theorem foldl_foldl_flatMap {α : Type} (g : α → List Point) (l : List α) :
    ∀ acc : BoundsAcc,
      l.foldl (fun a x => (g x).foldl accPoint a) acc =
        (l.flatMap g).foldl accPoint acc := by
  induction l with
  | nil => intro acc; rfl
  | cons x l ih =>
    intro acc
    simp only [List.foldl_cons, List.flatMap_cons, List.foldl_append]
    exact ih _

theorem accSubpath_eq (acc : BoundsAcc) (sp : Subpath) :
    accSubpath acc sp = (subpathRawPoints sp).foldl accPoint acc := by
  show sp.segments.foldl (fun a s => (segBoundsPoints s).foldl accPoint a)
      (accPoint acc sp.startPoint) = _
  rw [foldl_foldl_flatMap segBoundsPoints sp.segments]
  rfl

theorem foldl_accSubpath_eq (l : List Subpath) :
    ∀ acc : BoundsAcc,
      l.foldl accSubpath acc =
        (l.flatMap subpathRawPoints).foldl accPoint acc := by
  induction l with
  | nil => intro acc; rfl
  | cons sp l ih =>
    intro acc
    simp only [List.foldl_cons, List.flatMap_cons, List.foldl_append]
    rw [accSubpath_eq]
    exact ih _

theorem accPath_eq (acc : BoundsAcc) (p : ConvPath) :
    accPath acc p = (pathRawPoints p).foldl accPoint acc := by
  show (p.subpaths.getD []).foldl accSubpath acc = _
  rw [foldl_accSubpath_eq]
  rfl

theorem foldl_accPath_eq (paths : List ConvPath) :
    ∀ acc : BoundsAcc,
      paths.foldl accPath acc = (allRawPoints paths).foldl accPoint acc := by
  induction paths with
  | nil => intro acc; rfl
  | cons p l ih =>
    intro acc
    simp only [List.foldl_cons, allRawPoints, List.flatMap_cons,
      List.foldl_append]
    rw [accPath_eq]
    exact ih _

/-- C9 (amended): the bounding box calculateBounds returns equals the
componentwise min/max over all RAW geometry points — every subpath start
point, segment endpoint and control point taken as recorded, WITHOUT
mapping them through the coordinate transformation. -/
theorem c9_amended (paths : List ConvPath) :
    calculateBounds paths = boundsOfPointList (allRawPoints paths) := by
  unfold calculateBounds boundsOfPointList
  simp only [foldl_accPath_eq, foldl_accPoint_components,
    foldl_updMin_eq_min?, foldl_updMax_eq_max?]

/-- C9 counterexample: for a path whose raw points are (10,10) and
(50,50) under the default converter options (Y flip enabled, identity
CTM), calculateBounds reports min-y 10 while the min over transformed
points is 742 — the bounding box is not taken over transformed points. -/
theorem c9_counterexample :
    (calculateBounds [diagPath]).y = some 10 ∧
    (boundsOverTransformedPoints defaultConvOptions [diagPath]).y = some 742 ∧
    calculateBounds [diagPath] ≠
      boundsOverTransformedPoints defaultConvOptions [diagPath] := by
  refine ⟨by with_unfolding_all rfl, by with_unfolding_all rfl, fun h => ?_⟩
  have h2 := congrArg Bounds.y h
  rw [show (calculateBounds [diagPath]).y = some 10 from by
        with_unfolding_all rfl,
      show (boundsOverTransformedPoints defaultConvOptions [diagPath]).y
          = some 742 from by with_unfolding_all rfl] at h2
  have h3 := Option.some.inj h2
  norm_num at h3

/- ### Null filtering in the converter -/

/-- C10: convertPath returns null exactly for a null path, a path with no
subpaths field, or an empty subpath list; convertPaths drops the null
results, so a path without geometry never produces an SVG path element. -/
theorem c10_convert_null (o : ConvOptions) :
    convertPath o none = none ∧
    (∀ q : ConvPath, convertPath o (some q) = none ↔
      (q.subpaths = none ∨ q.subpaths = some [])) ∧
    ∀ ps : List (Option ConvPath),
      (none : Option SVGPathElem) ∉ convertPaths o ps := by
  refine ⟨rfl, ?_, ?_⟩
  · intro q
    rcases hq : q.subpaths with _ | sps
    · simp [convertPath, hq]
    · cases sps with
      | nil => simp [convertPath, hq]
      | cons a l => simp [convertPath, hq]
  · intro ps h
    have h2 := (List.mem_filter.mp h).2
    simp at h2

/-- Closed instances of c10_convert_null: a path with an empty subpath
list converts to null, and the filtered conversion of a list containing
it and a null path contains no null element. -/
theorem c10_convert_null_witness :
    convertPath defaultConvOptions (some emptySubpathsPath) = none ∧
      (none : Option SVGPathElem) ∉
        convertPaths defaultConvOptions [some emptySubpathsPath, none] :=
  ⟨((c10_convert_null defaultConvOptions).2.1 emptySubpathsPath).mpr
      (Or.inr rfl),
    (c10_convert_null defaultConvOptions).2.2 _⟩

end Gelly
